import Mathlib

/-!
Verification of the Legacy-IP-Suite ETL core (src/etl/transform_utils.py,
src/etl/validate.py, src/etl/migrate.py) against its specification.

The Python code is shallowly embedded: a pandas cell is `Option String`
(`none` models NaN, the value pandas gives a missing CSV cell), a data frame
is a list of rows together with its column list, and every normalizer is a
computable Lean function translated clause by clause from the source.
Python `float` scores are modelled as exact rationals, and Python's
`round(x, 2)` as round-half-to-even on rationals.
-/

namespace LegacyIP

/-- A pandas cell: `none` is NaN (missing value), `some s` is the string `s`. -/
abbrev Cell := Option String

/-- Python truthiness of a cell: NaN (a float) is truthy, a string is truthy
iff nonempty. -/
def truthy (v : Cell) : Bool :=
  match v with
  | none => true
  | some s => s ≠ ""

/-- Python `str(x)` / pandas `astype(str)` on a cell: NaN prints as "nan". -/
def cellAsStr (v : Cell) : String :=
  match v with
  | none => "nan"
  | some s => s

/-- Characters treated as whitespace by Python `strip`, `split` and `\s`
(ASCII subset). -/
def pyWs (c : Char) : Bool := c.isWhitespace

/-- Python `str.strip()` on the underlying character list. -/
def stripChars (cs : List Char) : List Char :=
  ((cs.dropWhile pyWs).reverse.dropWhile pyWs).reverse

/-- Python `str.strip()`. -/
def pyStrip (s : String) : String := ⟨stripChars s.data⟩

/-- Helper for `re.sub(r'\s+', ' ', s)`: the flag says whether the previous
character was whitespace (so the run is already represented). -/
def collapseAux (b : Bool) : List Char → List Char
  | [] => []
  | c :: r =>
    if pyWs c then
      if b then collapseAux true r else ' ' :: collapseAux true r
    else c :: collapseAux false r

/-- Python `re.sub(r'\s+', ' ', s)`: every whitespace run becomes one space. -/
def collapseWs (s : String) : String := ⟨collapseAux false s.data⟩

/-- Python `str.lower()` (ASCII letters). -/
def pyLower (s : String) : String := ⟨s.data.map Char.toLower⟩

/-- Helper for Python `str.title()`: uppercase a letter that follows a
non-letter, lowercase a letter that follows a letter. -/
def titleAux (prevAlpha : Bool) : List Char → List Char
  | [] => []
  | c :: r =>
    if c.isAlpha then
      (if prevAlpha then c.toLower else c.toUpper) :: titleAux true r
    else c :: titleAux false r

/-- Python `str.title()`. -/
def pyTitle (s : String) : String := ⟨titleAux false s.data⟩

/-- Helper for Python `str.split(sep)` with a one-character separator. -/
def splitCharAux (sep : Char) : List Char → List (List Char)
  | [] => [[]]
  | c :: r =>
    let rest := splitCharAux sep r
    if c = sep then [] :: rest
    else
      match rest with
      | h :: t => (c :: h) :: t
      | [] => [[c]]

/-- Python `str.split(sep)` with a one-character separator. -/
def pySplitChar (sep : Char) (s : String) : List String :=
  (splitCharAux sep s.data).map (fun l => ⟨l⟩)

/-- Split a character list at every character satisfying `p` (runs of
separators yield empty segments, as Python `re.split` with a bare class
would). -/
def splitPAux (p : Char → Bool) : List Char → List (List Char)
  | [] => [[]]
  | c :: r =>
    let rest := splitPAux p r
    if p c then [] :: rest
    else
      match rest with
      | h :: t => (c :: h) :: t
      | [] => [[c]]

/-- Python `str.split()` with no argument: split on whitespace runs,
dropping empty tokens. -/
def pySplitWs (s : String) : List String :=
  ((splitPAux pyWs s.data).map (fun l => (⟨l⟩ : String))).filter (fun t => t ≠ "")

/-- Python string comparison `a < b`: lexicographic on code points. -/
def strLt (a b : String) : Bool :=
  go a.data b.data
where
  go : List Char → List Char → Bool
    | [], [] => false
    | [], _ :: _ => true
    | _ :: _, [] => false
    | x :: xs, y :: ys =>
      if x.toNat < y.toNat then true
      else if y.toNat < x.toNat then false
      else go xs ys

/-- Python substring test `pat in s`. -/
def isSub (pat s : String) : Bool :=
  s.data.tails.any (fun t => pat.data.isPrefixOf t)

/-- Python `" ".join(l)`. -/
def joinSpace (l : List String) : String := String.intercalate " " l

/-- First-match lookup in an association list (a Python dict preserves
insertion order, a list of pairs models it). -/
def alookup {α : Type} (l : List (String × α)) (k : String) : Option α :=
  (l.find? (fun p => p.1 == k)).map (fun p => p.2)

/-- The sentinel values `clean_string` maps to the empty string. -/
def sentinelValues : List String :=
  ["n/a", "na", "null", "none", "unknown", "tbd", "pending"]

/-- transform_utils.clean_string: NaN/None to "", strip, collapse whitespace
runs, and map the case-insensitive sentinel set to "". -/
def clean_string (v : Cell) : String :=
  match v with
  | none => ""
  | some s =>
    let cleaned := collapseWs (pyStrip s)
    if sentinelValues.contains (pyLower cleaned) then "" else cleaned

/-- transform_utils.COUNTRY_MAP, in source (insertion) order. -/
def COUNTRY_MAP : List (String × String) :=
  [("United States", "US"), ("USA", "US"), ("US", "US"),
   ("United States of America", "US"),
   ("Canada", "CA"), ("CA", "CA"),
   ("United Kingdom", "GB"), ("UK", "GB"), ("GB", "GB"),
   ("Great Britain", "GB"),
   ("Germany", "DE"), ("DE", "DE"), ("Deutschland", "DE"),
   ("Federal Republic of Germany", "DE"),
   ("France", "FR"), ("FR", "FR"), ("République française", "FR"),
   ("Japan", "JP"), ("JP", "JP"), ("Nippon", "JP"), ("Nihon", "JP"),
   ("China", "CN"), ("CN", "CN"), ("People's Republic of China", "CN"),
   ("PRC", "CN"),
   ("India", "IN"), ("IN", "IN"), ("Republic of India", "IN"),
   ("Australia", "AU"), ("AU", "AU"), ("Commonwealth of Australia", "AU"),
   ("Brazil", "BR"), ("BR", "BR"), ("Brasil", "BR"),
   ("Federative Republic of Brazil", "BR"),
   ("Italy", "IT"), ("IT", "IT"), ("Italia", "IT"),
   ("Spain", "ES"), ("ES", "ES"), ("España", "ES"),
   ("Netherlands", "NL"), ("NL", "NL"), ("Holland", "NL"),
   ("Switzerland", "CH"), ("CH", "CH"), ("Schweiz", "CH"), ("Suisse", "CH"),
   ("Sweden", "SE"), ("SE", "SE"), ("Sverige", "SE"),
   ("South Korea", "KR"), ("KR", "KR"), ("Korea", "KR"),
   ("Republic of Korea", "KR")]

/-- transform_utils.iso2: direct lookup, then case-insensitive lookup, then
substring heuristics, else None. The `if result:` truthiness test on the
direct lookup is `isSome` because every map value is a nonempty literal. -/
def iso2 (country_raw : String) : Option String :=
  if country_raw = "" then none
  else
    let country_clean := pyStrip (clean_string (some country_raw))
    if country_clean = "" then none
    else
      match alookup COUNTRY_MAP country_clean with
      | some v => some v
      | none =>
        match COUNTRY_MAP.find? (fun p => pyLower p.1 == pyLower country_clean) with
        | some p => some p.2
        | none =>
          let country_lower := pyLower country_clean
          if isSub "united states" country_lower || isSub "america" country_lower then
            some "US"
          else if isSub "united kingdom" country_lower || isSub "britain" country_lower then
            some "GB"
          else if isSub "germany" country_lower || isSub "deutschland" country_lower then
            some "DE"
          else none

/-- iso2 applied to a raw cell, as `df[...].map(_iso2)` does: NaN is truthy
in `if not country_raw`, but clean_string then maps it to "", giving None. -/
def iso2_cell (v : Cell) : Option String :=
  match v with
  | none => none
  | some s => iso2 s

/-- Leap year rule (Gregorian), as used by Python `datetime.date`. -/
def isLeap (y : Nat) : Bool := y % 4 = 0 && (y % 100 ≠ 0 || y % 400 = 0)

/-- Days in a month of a given year. -/
def daysInMonth (y m : Nat) : Nat :=
  if m = 2 then (if isLeap y then 29 else 28)
  else if m = 4 || m = 6 || m = 9 || m = 11 then 30
  else 31

/-- A calendar-valid (year, month, day) triple. -/
def validDate (y m d : Nat) : Bool :=
  1 ≤ m && m ≤ 12 && 1 ≤ d && d ≤ daysInMonth y m

/-- A nonempty all-digit token. -/
def allDigits (s : String) : Bool :=
  s ≠ "" && s.data.all Char.isDigit

/-- Numeric value of an all-digit token. -/
def strNat (s : String) : Nat :=
  s.data.foldl (fun a c => a * 10 + (c.toNat - 48)) 0

/-- Month/day resolution of `dateutil` with `dayfirst=False`: the first
component is the month; when it exceeds 12 and the second does not, the two
are swapped. -/
def resolveMD (n1 n2 : Nat) : Option (Nat × Nat) :=
  if n1 ≤ 12 then some (n1, n2)
  else if n2 ≤ 12 then some (n2, n1)
  else none

/-- Calendar validation step of the parser: dateutil raises (and `to_date`
catches, returning None) on an invalid calendar date. -/
def checkDate (y m d : Nat) : Option (Nat × Nat × Nat) :=
  if validDate y m d then some (y, m, d) else none

/-- Model of `dateutil.parser.parse(s, dayfirst=False, yearfirst=False)`
restricted to three numeric components joined by a uniform "/" or "-"
separator with a four-digit year: a leading four-digit token is the year
(Y-M-D), a trailing four-digit year gives month-first M/D/Y with the
dateutil swap when the first component exceeds 12. Two-digit years are
resolved by dateutil relative to the current date, and textual-month forms
are not needed by any claim; both are outside this model and parse to none
here. -/
def parseYMD (p1 p2 p3 : String) : Option (Nat × Nat × Nat) :=
  if p1.length = 4 then checkDate (strNat p1) (strNat p2) (strNat p3)
  else if p3.length = 4 then
    match resolveMD (strNat p1) (strNat p2) with
    | some (m, d) => checkDate (strNat p3) m d
    | none => none
  else none

/-- Component tokens of a candidate numeric date: split on "/" when one is
present, else on "-", else the whole string. -/
def dateTokens (s : String) : List String :=
  if s.data.contains '/' then pySplitChar '/' s
  else if s.data.contains '-' then pySplitChar '-' s
  else [s]

/-- Tokenize and parse a numeric date string; see `parseYMD`. -/
def parseNumericDate (s : String) : Option (Nat × Nat × Nat) :=
  match dateTokens s with
  | [a, b, c] =>
    if allDigits a && allDigits b && allDigits c then parseYMD a b c else none
  | _ => none

/-- Decimal print of `n`, left-padded with zeros to width `k`. -/
def padZeros (k n : Nat) : String :=
  let s := toString n
  ⟨List.replicate (k - s.length) '0'⟩ ++ s

/-- Python `date(y, m, d).isoformat()`. -/
def isoFormat (y m d : Nat) : String :=
  padZeros 4 y ++ "-" ++ padZeros 2 m ++ "-" ++ padZeros 2 d

/-- The sentinel bad-date list of transform_utils.to_date. -/
def badDates : List String :=
  ["00/00/0000", "1900-01-01", "0000-00-00", "01/01/1900"]

/-- transform_utils.to_date: NaN or falsy to None; clean; reject the
sentinel bad-date set; parse (see `parseNumericDate`); keep only years in
[1900, 2050]; ISO-format the result. -/
def to_date (v : Cell) : Option String :=
  match v with
  | none => none
  | some s =>
    if s = "" then none
    else
      let date_str := clean_string (some s)
      if date_str = "" then none
      else if badDates.contains date_str then none
      else
        match parseNumericDate date_str with
        | some (y, m, d) =>
          if 1900 ≤ y && y ≤ 2050 then some (isoFormat y m d) else none
        | none => none

/-- Result of transform_utils.split_name. -/
structure NameParts where
  first_name : String
  last_name : String
deriving DecidableEq, Repr

/-- transform_utils.split_name. The comma branch mirrors Python
`name_clean.split(",")` followed by indexing parts 0 and 1; when the split
yields fewer than two parts the code falls through to the whitespace
branch, exactly as the source does. -/
def split_name (name : String) : NameParts :=
  if name = "" then ⟨"", ""⟩
  else
    let name_clean := clean_string (some name)
    if name_clean = "" then ⟨"", ""⟩
    else
      let commaResult :=
        if name_clean.data.contains ',' then
          let parts := (pySplitChar ',' name_clean).map pyStrip
          if 2 ≤ parts.length then
            some (NameParts.mk (pyTitle (parts.getD 1 "")) (pyTitle (parts.getD 0 "")))
          else none
        else none
      match commaResult with
      | some r => r
      | none =>
        match pySplitWs name_clean with
        | [t] => ⟨"", pyTitle t⟩
        | [a, b] => ⟨pyTitle a, pyTitle b⟩
        | a :: rest => ⟨pyTitle a, pyTitle (joinSpace rest)⟩
        | [] => ⟨"", pyTitle name_clean⟩

/-- split_name as applied by `df[...].map(_split_name)` to a raw cell: NaN
is truthy in `if not name`, and clean_string then yields "", so both
components come back empty. -/
def split_name_cell (v : Cell) : NameParts :=
  match v with
  | none => ⟨"", ""⟩
  | some s => split_name s

/-- A character of the separator class `[,;\s]+` of parse_classes. -/
def classSep (c : Char) : Bool := c = ',' || c = ';' || pyWs c

/-- Maximal digit runs of a token, as `re.findall(r'\d+', part)` returns
them. For an all-digit token this is the token itself, so the `isdigit`
fast path of the source yields the same numbers as this general path. -/
def digitRuns : List Char → List (List Char)
  | [] => []
  | c :: r =>
    if c.isDigit then
      match digitRuns r with
      | run :: t =>
        match r with
        | r0 :: _ => if r0.isDigit then (c :: run) :: t else [c] :: run :: t
        | [] => [c] :: run :: t
      | [] => [[c]]
    else digitRuns r

/-- Insert into a strictly increasing list, skipping an element already
present; folding this over a list computes Python `sorted(list(set(l)))`. -/
def insSorted (n : Nat) : List Nat → List Nat
  | [] => [n]
  | x :: xs =>
    if n < x then n :: x :: xs
    else if n = x then x :: xs
    else x :: insSorted n xs

/-- Python `sorted(list(set(l)))` for natural numbers. -/
def sortedDedup (l : List Nat) : List Nat := l.foldr insSorted []

/-- transform_utils.parse_classes: split the cleaned string on `[,;\s]+`,
take the value of every embedded digit run that lies in [1, 45], and return
the sorted deduplicated list. Empty tokens produced by a leading separator
contribute nothing in the source (no digit runs), so they are dropped here. -/
def parse_classes (v : Cell) : List Nat :=
  match v with
  | none => []
  | some s =>
    if s = "" then []
    else
      let classes_str := clean_string (some s)
      if classes_str = "" then []
      else
        let parts := ((splitPAux classSep classes_str.data).map
          (fun l => (⟨l⟩ : String))).filter (fun t => t ≠ "")
        let numbers := parts.flatMap
          (fun part => ((digitRuns part.data).map (fun run => strNat ⟨run⟩)).filter
            (fun n => 1 ≤ n && n ≤ 45))
        sortedDedup numbers

/-- transform_utils.STATUS_MAPPINGS, in source order. -/
def STATUS_MAPPINGS : List (String × List (String × List String)) :=
  [("patent",
    [("pending", ["pending", "filed", "under examination", "prosecution", "in prosecution"]),
     ("granted", ["granted", "issued", "patented", "allowed"]),
     ("abandoned", ["abandoned", "withdrawn", "dismissed"]),
     ("rejected", ["rejected", "refused", "denied"]),
     ("expired", ["expired", "lapsed", "terminated"])]),
   ("trademark",
    [("pending", ["pending", "filed", "under examination", "published", "application"]),
     ("registered", ["registered", "registration", "issued", "granted"]),
     ("opposed", ["opposed", "opposition", "contested"]),
     ("cancelled", ["cancelled", "canceled", "revoked"]),
     ("abandoned", ["abandoned", "withdrawn", "dismissed"]),
     ("expired", ["expired", "lapsed", "terminated"])]),
   ("copyright",
    [("pending", ["pending", "filed", "under examination", "application"]),
     ("registered", ["registered", "registration", "issued", "granted"]),
     ("rejected", ["rejected", "refused", "denied"]),
     ("abandoned", ["abandoned", "withdrawn", "dismissed"])])]

/-- The canonical status keys the mapping table defines for an entity type. -/
def statusKeys (entity_type : String) : List String :=
  ((alookup STATUS_MAPPINGS entity_type).getD []).map (fun p => p.1)

/-- transform_utils.normalize_status: default "pending" for falsy or
cleaned-empty input; exact variant match first, then substring match in
either direction; else "pending". Note that `clean_string` already maps the
token "pending" itself to "", which the default then restores. -/
def normalize_status (status : String) (entity_type : String) : String :=
  if status = "" then "pending"
  else
    let status_clean := pyLower (clean_string (some status))
    if status_clean = "" then "pending"
    else
      let mappings := (alookup STATUS_MAPPINGS entity_type).getD []
      match mappings.find? (fun p => (p.2.map pyLower).contains status_clean) with
      | some p => p.1
      | none =>
        match mappings.find?
            (fun p => p.2.any (fun v => isSub (pyLower v) status_clean
                                        || isSub status_clean (pyLower v))) with
        | some p => p.1
        | none => "pending"

/-- A character admitted by the local part `[a-zA-Z0-9._%+-]` of the email
pattern of parse_email. -/
def localChar (c : Char) : Bool :=
  c.isAlphanum || c = '.' || c = '_' || c = '%' || c = '+' || c = '-'

/-- A character admitted by the domain part `[a-zA-Z0-9.-]`. -/
def domainChar (c : Char) : Bool := c.isAlphanum || c = '.' || c = '-'

/-- Match of the anchored pattern `[a-zA-Z0-9._%+-]+@[a-zA-Z0-9.-]+\.[a-zA-Z]{2,}`.
The string must hold exactly one `@` (neither character class admits one);
after it, the trailing `[a-zA-Z]{2,}` holds no dot, so the `\.` of any
successful backtracking decomposition is the last dot of the domain: the
pattern matches iff the segment after the last dot is two or more letters
and the nonempty segment before it is made of domain characters. -/
def emailMatch (s : String) : Bool :=
  match pySplitChar '@' s with
  | [loc, dom] =>
    loc ≠ "" && loc.data.all localChar &&
    (dom.data.contains '.' &&
      (let tld := (dom.data.reverse.takeWhile (fun c => c ≠ '.')).reverse
       let pre := dom.data.take (dom.data.length - tld.length - 1)
       pre ≠ [] && pre.all domainChar && 2 ≤ tld.length && tld.all Char.isAlpha))
  | _ => false

/-- Python `s.replace("_at_", "@")`: left-to-right, non-overlapping. -/
def replaceAtMarker : List Char → List Char
  | '_' :: 'a' :: 't' :: '_' :: rest => '@' :: replaceAtMarker rest
  | c :: rest => c :: replaceAtMarker rest
  | [] => []

/-- transform_utils.parse_email: lower-cased cleaned value, validated
against the pattern; on failure, if the text holds the `_at_` marker it is
replaced by `@` and revalidated; otherwise "". A NaN cell is truthy but
cleans to "", giving "". -/
def parse_email (v : Cell) : String :=
  match v with
  | none => ""
  | some s =>
    if s = "" then ""
    else
      let email_clean := pyLower (clean_string (some s))
      if email_clean = "" then ""
      else if emailMatch email_clean then email_clean
      else if isSub "_at_" email_clean then
        let fixed : String := ⟨replaceAtMarker email_clean.data⟩
        if emailMatch fixed then fixed else ""
      else ""

/-- A data-frame row: one cell per column, keyed by column name. -/
abbrev Row := List (String × Cell)

/-- A pandas data frame: its column list and its rows. Every row of a real
frame carries exactly the frame's columns; access below is total and treats
a key absent from a row as NaN. -/
structure Df where
  cols : List String
  rows : List Row

/-- The cell a row holds under a key, when the key is present. -/
def cellOf (r : Row) (c : String) : Option Cell :=
  (r.find? (fun p => p.1 == c)).map (fun p => p.2)

/-- Column access `df[c]` at one row (the key is present in a well-formed
frame; an absent key reads as NaN). -/
def dfCell (r : Row) (c : String) : Cell := (cellOf r c).getD none

/-- Python `row.get(c, dflt)` on an iterrows Series with a string default:
the cell when the key exists (NaN stays NaN), else the default. -/
def rowGet (r : Row) (c : String) (dflt : String) : Cell :=
  (cellOf r c).getD (some dflt)

/-- Python `row.get(c)` with default None; both None and NaN are `none`. -/
def rowGetOpt (r : Row) (c : String) : Cell := (cellOf r c).getD none

/-- Round half to even at integer precision, the rule of Python `round`. -/
def rhe (t : ℚ) : ℤ :=
  let f := ⌊t⌋
  if t - f < 1 / 2 then f
  else if 1 / 2 < t - f then f + 1
  else if f % 2 = 0 then f else f + 1

/-- Python `round(x, 2)` on an exact rational. -/
def round2 (q : ℚ) : ℚ := (rhe (q * 100) : ℚ) / 100

/-- Helper for pandas `Series.duplicated().sum()`: count the elements equal
to some earlier element, `seen` holding the values already passed. -/
def dupCountAux (seen : List Cell) : List Cell → Nat
  | [] => 0
  | c :: rest =>
    (if seen.contains c then 1 else 0) + dupCountAux (c :: seen) rest

/-- pandas `Series.duplicated().sum()`: every occurrence after the first of
a value counts (pandas treats two NaN as duplicates of each other too). -/
def dupCount (l : List Cell) : Nat := dupCountAux [] l

/-- Count of missing values of one critical field:
`df[field].isna().sum() + (df[field] == "").sum()` (0 when the column is
absent, matching the `if field in df.columns` guard). -/
def missingCnt (df : Df) (field : String) : Nat :=
  if df.cols.contains field then
    df.rows.countP (fun r => dfCell r field = none)
      + df.rows.countP (fun r => dfCell r field = some "")
  else 0

/-- Total missing-critical-field count over a field list. -/
def missingTotal (df : Df) (fields : List String) : Nat :=
  (fields.map (missingCnt df)).sum

/-- The per-field missing issue messages, in field order. -/
def missingIssues (df : Df) (fields : List String) : List String :=
  fields.filterMap (fun field =>
    if df.cols.contains field then
      let missing := missingCnt df field
      if missing > 0 then some s!"{missing} records missing {field}" else none
    else none)

/-- Count of rows whose email cell is truthy and passes parse_email
(`df['email'].apply(lambda x: bool(parse_email(x)) if x else False).sum()`). -/
def validEmailCnt (df : Df) : Nat :=
  df.rows.countP (fun r => truthy (dfCell r "email") && parse_email (dfCell r "email") ≠ "")

/-- Invalid-email count of the clients branch: total rows minus valid ones
(0 when the email column is absent). -/
def invalidEmailCnt (df : Df) : Nat :=
  if df.cols.contains "email" then df.rows.length - validEmailCnt df else 0

/-- The date fields the IP-asset branch checks. -/
def dateFields : List String := ["filing_date", "grant_date", "registration_date"]

/-- Count of invalid dates in one column:
`df[field].apply(lambda x: to_date(x) is None if x else False).sum()`.
A NaN cell is truthy and to_date gives None on it, so it counts. -/
def invalidDateCnt (df : Df) (field : String) : Nat :=
  if df.cols.contains field then
    df.rows.countP (fun r => truthy (dfCell r field) && (to_date (dfCell r field)).isNone)
  else 0

/-- Total invalid-date count over the checked date fields. -/
def invalidDateTotal (df : Df) : Nat := (dateFields.map (invalidDateCnt df)).sum

/-- The per-field invalid-date issue messages. -/
def invalidDateIssues (df : Df) : List String :=
  dateFields.filterMap (fun field =>
    if df.cols.contains field then
      let invalid := invalidDateCnt df field
      if invalid > 0 then some s!"{invalid} invalid {field} values" else none
    else none)

/-- The critical-field list of the entity-specific branches of
validate_data_quality. -/
def criticalFields (entity_type : String) : List String :=
  if entity_type = "clients" then ["client_name", "email"]
  else if entity_type = "patents" || entity_type = "trademarks"
       || entity_type = "copyrights" then ["title", "client_id", "status"]
  else []

/-- The quality-metrics record validate_data_quality returns. The zero-row
dictionary of the source carries only total_rows, quality_score and issues;
the remaining fields are read as their initial zeros here. -/
structure QualityMetrics where
  total_rows : Nat
  complete_records : Nat
  missing_critical_fields : Nat
  invalid_dates : Nat
  invalid_emails : Nat
  duplicate_records : Nat
  quality_score : ℚ
  issues : List String
deriving DecidableEq, Repr

/-- The duplicate-record count of validate_data_quality (0 when the frame
has no external_ref column, matching the `if` guard). -/
def dupRecords (df : Df) : Nat :=
  if df.cols.contains "external_ref" then
    dupCount (df.rows.map (fun r => dfCell r "external_ref"))
  else 0

/-- The invalid-email count contribution: clients only. -/
def emailIssueCnt (df : Df) (entity_type : String) : Nat :=
  if entity_type = "clients" then invalidEmailCnt df else 0

/-- Whether the entity type takes the IP-asset validation branch. -/
def isAssetType (entity_type : String) : Bool :=
  entity_type = "patents" || entity_type = "trademarks" || entity_type = "copyrights"

/-- The invalid-date count contribution: IP-asset entities only. -/
def dateIssueCnt (df : Df) (entity_type : String) : Nat :=
  if isAssetType entity_type then invalidDateTotal df else 0

/-- The total issue count of validate_data_quality: missing critical fields
plus invalid dates plus invalid emails plus duplicate records. -/
def totalIssues (df : Df) (entity_type : String) : Nat :=
  missingTotal df (criticalFields entity_type) + dateIssueCnt df entity_type
    + emailIssueCnt df entity_type + dupRecords df

/-- transform_utils.validate_data_quality: duplicate external_ref count,
entity-specific missing/invalid counts with their issue messages, and the
score `round(max(0, 100 - total_issues / total_rows * 100), 2)`. -/
def validate_data_quality (df : Df) (entity_type : String) : QualityMetrics :=
  let total_rows := df.rows.length
  if total_rows = 0 then ⟨0, 0, 0, 0, 0, 0, 0, []⟩
  else
    let duplicates := dupRecords df
    let dupIssues :=
      if duplicates > 0 then [s!"{duplicates} duplicate external references found"] else []
    let missing := missingTotal df (criticalFields entity_type)
    let missIss := missingIssues df (criticalFields entity_type)
    let invalid_emails := emailIssueCnt df entity_type
    let emailIss :=
      if entity_type = "clients" && invalid_emails > 0 then
        [s!"{invalid_emails} invalid email addresses"] else []
    let invalid_dates := dateIssueCnt df entity_type
    let dateIss := if isAssetType entity_type then invalidDateIssues df else []
    let quality_score :=
      round2 (max 0 (100 - (totalIssues df entity_type : ℚ) / (total_rows : ℚ) * 100))
    ⟨total_rows, 0, missing, invalid_dates, invalid_emails, duplicates,
     quality_score, dupIssues ++ missIss ++ emailIss ++ dateIss⟩

/-- A business-rule or referential finding `{rule, record_id, message}`. -/
structure Finding where
  rule : String
  record_id : String
  message : String
deriving DecidableEq, Repr

/-- The record id of a finding: `row.get(key, idx)` printed — the cell when
the key exists (NaN prints "nan"), else the positional index. -/
def recordId (r : Row) (key : String) (idx : Nat) : String :=
  match cellOf r key with
  | some v => cellAsStr v
  | none => toString idx

/-- validate.py _validate_client_business_rules: a truthy email cell that
parse_email rejects is one finding per row. -/
def clientBusinessRules (df : Df) : List Finding :=
  df.rows.enum.filterMap (fun p =>
    let email := rowGet p.2 "email" ""
    if truthy email && parse_email email = "" then
      some ⟨"Email format validation", recordId p.2 "client_id" p.1,
            s!"Invalid email format: {cellAsStr email}"⟩
    else none)

/-- validate.py _validate_patent_business_rules: when both dates parse, the
filing date must not exceed the grant date (ISO strings compare as Python
strings do). -/
def patentBusinessRules (df : Df) : List Finding :=
  df.rows.enum.filterMap (fun p =>
    match to_date (rowGetOpt p.2 "filing_date"), to_date (rowGetOpt p.2 "grant_date") with
    | some fd, some gd =>
      if strLt gd fd then
        some ⟨"Filing date before grant date", recordId p.2 "patent_id" p.1,
              s!"Filing date ({fd}) is after grant date ({gd})"⟩
      else none
    | _, _ => none)

/-- validate.py _validate_trademark_business_rules: a truthy nice_classes
cell that parses to an empty class list is one finding per row. -/
def trademarkBusinessRules (df : Df) : List Finding :=
  df.rows.enum.filterMap (fun p =>
    let nice := rowGet p.2 "nice_classes" ""
    if truthy nice && (parse_classes nice).isEmpty then
      some ⟨"Valid Nice classes required", recordId p.2 "tm_id" p.1,
            s!"Invalid Nice classes: {cellAsStr nice}"⟩
    else none)

/-- A deadline row selected by `df[df['status'].str.lower() == 'pending']`
(`.str.lower()` keeps NaN, which never equals "pending"). -/
def isPendingRow (r : Row) : Bool :=
  match dfCell r "status" with
  | some s => pyLower s == "pending"
  | none => false

/-- validate.py _validate_deadline_business_rules, with the run's current
date passed explicitly: a pending row whose due date parses strictly before
today is one finding (original positional indices are kept, as iterrows on
the filtered frame keeps them). -/
def deadlineBusinessRules (df : Df) (today : String) : List Finding :=
  df.rows.enum.filterMap (fun p =>
    if isPendingRow p.2 then
      match to_date (rowGetOpt p.2 "due_date") with
      | some dd =>
        if strLt dd today then
          some ⟨"Pending deadline due date validation", recordId p.2 "deadline_id" p.1,
                s!"Pending deadline has past due date: {dd}"⟩
        else none
      | none => none
    else none)

/-- validate.py _validate_business_rules: dispatch on the entity type. -/
def businessRules (df : Df) (entity_type : String) (today : String) : List Finding :=
  if entity_type = "clients" then clientBusinessRules df
  else if entity_type = "patents" then patentBusinessRules df
  else if entity_type = "trademarks" then trademarkBusinessRules df
  else if entity_type = "deadlines" then deadlineBusinessRules df today
  else []

/-- A model file system: the frame a CSV file name holds, none if absent. -/
abbrev FileSystem := String → Option Df

/-- validate.py _validate_referential_integrity: when clients.csv exists,
its client_id column printed via astype(str) is the authoritative set, and
every row of a frame with a client_id column whose raw cell is not in that
set is flagged (a NaN cell never equals a string of the set). -/
def refIntegrityErrors (fs : FileSystem) (df : Df) (entity_type : String) : List Finding :=
  match fs "clients.csv" with
  | none => []
  | some clients_df =>
    let valid_ids := clients_df.rows.map (fun r => cellAsStr (dfCell r "client_id"))
    if df.cols.contains "client_id" then
      df.rows.enum.filterMap (fun p =>
        let cid := dfCell p.2 "client_id"
        let hit := match cid with
                   | some s => valid_ids.contains s
                   | none => false
        if hit then none
        else
          some ⟨"Valid client reference",
                recordId p.2 (entity_type.dropRight 1 ++ "_id") p.1,
                s!"Invalid client_id reference: {cellAsStr cid}"⟩)
    else []

/-- The references_checked count of _validate_referential_integrity. -/
def refChecked (df : Df) : Nat :=
  if df.cols.contains "client_id" then df.rows.length else 0

/-- validate.py _calculate_overall_score: business score
`max(0, 100 - 5 * errors)` when there are errors, else 100; weighted
combination rounded to 2 decimals. -/
def overallScore (qm : QualityMetrics) (businessErrors : Nat) : ℚ :=
  let business_score : ℚ :=
    if businessErrors > 0 then max 0 (100 - (businessErrors : ℚ) * 5) else 100
  round2 (qm.quality_score * (7 / 10) + business_score * (3 / 10))

/-- One entry of the validation report. An error entry carries the literal
quality_score 0 of the error dictionary in `errorScore` and no
overall_score key (`overall = none`); a success entry carries the converse. -/
structure ValidationResult where
  entity_type : String
  status : String
  errorScore : Option ℚ
  record_count : Option Nat
  metrics : Option QualityMetrics
  business : Option (List Finding)
  referential : Option (List Finding)
  overall : Option ℚ
deriving DecidableEq, Repr

/-- validate.py IPMSDataValidator.validate_file: an absent file returns an
error entry with quality_score 0 rather than raising; otherwise quality
metrics, business rules and referential checks combine into a success entry
with the weighted overall score. -/
def validate_file (fs : FileSystem) (fileName : String) (entity_type : String)
    (today : String) : ValidationResult :=
  match fs fileName with
  | none => ⟨entity_type, "error", some 0, none, none, none, none, none⟩
  | some df =>
    let qm := validate_data_quality df entity_type
    let bv := businessRules df entity_type today
    let rv := refIntegrityErrors fs df entity_type
    ⟨entity_type, "success", none, some df.rows.length, some qm, some bv,
     some rv, some (overallScore qm bv.length)⟩

/-- The fixed file list of validate_all, in source order. -/
def filesToValidate : List (String × String) :=
  [("clients.csv", "clients"), ("patents.csv", "patents"),
   ("trademarks.csv", "trademarks"), ("deadlines.csv", "deadlines")]

/-- The validation summary validate_all builds. -/
structure ValidationSummary where
  system_quality_score : ℚ
  entities_validated : Nat
  results : List (String × ValidationResult)
deriving DecidableEq, Repr

/-- The scores validate_all accumulates: `if result.get('overall_score'):`
keeps a score only when the key exists (success entries) and its value is
truthy, i.e. nonzero. -/
def collectedScores (results : List (String × ValidationResult)) : List ℚ :=
  results.filterMap (fun p =>
    match p.2.overall with
    | some q => if q ≠ 0 then some q else none
    | none => none)

/-- validate.py IPMSDataValidator.validate_all: validate the four fixed
entities, collect the truthy overall scores, and report their mean
(0 when none were collected), rounded to 2 decimals. -/
def validate_all (fs : FileSystem) (today : String) : ValidationSummary :=
  let results := filesToValidate.map (fun p => (p.2, validate_file fs p.1 p.2 today))
  let overall_scores := collectedScores results
  let system_score : ℚ :=
    if overall_scores.isEmpty then 0
    else overall_scores.sum / (overall_scores.length : ℚ)
  ⟨round2 system_score, results.length, results⟩

/-- A transformed client row of migrate.transform_clients. -/
structure ClientRec where
  external_ref : String
  name : NameParts
  email : Cell
  phone : Cell
  address : Cell
  country_code : Option String
  created_on : Option String
deriving DecidableEq, Repr

/-- Drop-duplicates on a key, keeping the first occurrence (the pandas
`drop_duplicates(subset=[...])` default), `seen` holding keys already kept. -/
def dedupKeyAux {α : Type} (key : α → String) (seen : List String) :
    List α → List α
  | [] => []
  | x :: xs =>
    if seen.contains (key x) then dedupKeyAux key seen xs
    else x :: dedupKeyAux key (key x :: seen) xs

/-- pandas `drop_duplicates(subset=[key])`, keep="first". -/
def dedupKeepFirst {α : Type} (key : α → String) (l : List α) : List α :=
  dedupKeyAux key [] l

/-- migrate.transform_clients: strip the client_id into external_ref, split
the name, copy contact fields (`df.get(c, "")` reads "" when the column is
absent), map the country through iso2 and created_on through to_date, then
drop duplicate external_refs keeping the first occurrence. -/
def transform_clients (df : Df) : List ClientRec :=
  dedupKeepFirst (fun r => r.external_ref)
    (df.rows.map (fun r =>
      ⟨pyStrip (cellAsStr (dfCell r "client_id")),
       split_name_cell (dfCell r "client_name"),
       rowGet r "email" "",
       rowGet r "phone" "",
       rowGet r "address" "",
       iso2_cell (rowGet r "country" ""),
       to_date (rowGet r "created_on" "")⟩))

/-- A transformed patent row of migrate.transform_patents. -/
structure PatentRec where
  external_ref : String
  client_id : Option Nat
  title : String
  filing_date : Option String
  grant_date : Option String
  jurisdiction : Option String
  status : Cell
deriving DecidableEq, Repr

/-- migrate.transform_patents. The client map resolves the stripped legacy
client id to a surrogate id (none when unmapped). The jurisdiction lookup
table comes from schema/mappings.json, a data file outside src, so it is a
parameter; `str(x)` prints a NaN cell as "nan". The status column is copied
through unchanged. No duplicate dropping happens here. -/
def transform_patents (df : Df) (client_map : String → Option Nat)
    (jurisdiction_map : String → Option String) : List PatentRec :=
  df.rows.map (fun r =>
    ⟨pyStrip (cellAsStr (dfCell r "patent_id")),
     client_map (pyStrip (cellAsStr (dfCell r "client_id"))),
     (match dfCell r "title" with
      | none => "Untitled"
      | some s => s),
     to_date (rowGet r "filing_date" ""),
     to_date (rowGet r "grant_date" ""),
     jurisdiction_map (cellAsStr (rowGet r "jurisdiction" "")),
     rowGet r "status" ""⟩)

/-- A transformed trademark row of migrate.transform_trademarks. -/
structure TrademarkRec where
  external_ref : String
  client_id : Option Nat
  mark_text : String
  nice_classes : List Nat
  filing_date : Option String
  status : Cell
deriving DecidableEq, Repr

/-- migrate.transform_trademarks: like the patents transform; the Nice
classes parse from the legacy "class" column; status is copied through
unchanged and no duplicate dropping happens. -/
def transform_trademarks (df : Df) (client_map : String → Option Nat) :
    List TrademarkRec :=
  df.rows.map (fun r =>
    ⟨pyStrip (cellAsStr (dfCell r "tm_id")),
     client_map (pyStrip (cellAsStr (dfCell r "client_id"))),
     (match dfCell r "mark_text" with
      | none => ""
      | some s => s),
     parse_classes (rowGet r "class" ""),
     to_date (rowGet r "filing_date" ""),
     rowGet r "status" ""⟩)

/-- A transformed deadline row of migrate.transform_deadlines. -/
structure DeadlineRec where
  external_ref : String
  related_table : String
  related_id : Option Nat
  due_date : Option String
  description : Cell
deriving DecidableEq, Repr

/-- migrate.transform_deadlines. The output's related_table column derives
from the lower-cased related_type ("patent" gives patents, anything else —
NaN included — gives trademarks). But resolve_id is applied with df.apply
over the input frame and reads row["related_table"], a column that exists
only on the output frame: on every nonempty input frame without a
related_table column the Series lookup raises KeyError, so the call never
returns (none here). When the input frame itself carries a related_table
column, resolve_id uses the input's cells — the stripped related_id goes
through patent_map when that cell equals "patents" (a NaN cell never does),
else through tm_map. df.apply evaluates resolve_id on no row of an empty
frame, so an empty input yields an empty output and no error. -/
def transform_deadlines (df : Df) (patent_map tm_map : String → Option Nat) :
    Option (List DeadlineRec) :=
  if df.rows.isEmpty then some []
  else if df.cols.contains "related_table" then
    some (df.rows.map (fun r =>
      let related_type : Cell :=
        match dfCell r "related_type" with
        | some s => some (pyLower s)
        | none => none
      let related_table := if related_type = some "patent" then "patents" else "trademarks"
      let rid := pyStrip (cellAsStr (dfCell r "related_id"))
      ⟨pyStrip (cellAsStr (dfCell r "dl_id")),
       related_table,
       (if dfCell r "related_table" = some "patents" then patent_map rid else tm_map rid),
       to_date (rowGet r "due_date" ""),
       rowGet r "description" ""⟩))
  else none

/-- A target-table row: column name to SQL value (a string here). -/
abbrev DbRow := List (String × String)

/-- A target table keyed by its unique column value (external_ref). -/
abbrev Table := List (String × DbRow)

/-- What upsert_dataframe returns and leaves behind. -/
structure UpsertOutcome where
  table : Table
  inserted : Nat
  updated : Nat
deriving DecidableEq, Repr

/-- Set the update columns of an existing row from the incoming row, the
`DO UPDATE SET c = EXCLUDED.c` clause of the statement. -/
def applyUpdate (updateCols : List String) (oldRow newRow : DbRow) : DbRow :=
  oldRow.map (fun p =>
    if updateCols.contains p.1 then
      match alookup newRow p.1 with
      | some v => (p.1, v)
      | none => p
    else p)

/-- One `INSERT ... ON CONFLICT (unique_col) DO UPDATE` row: update in
place on a key conflict, else append. -/
def upsertOne (updateCols : List String) (t : Table) (key : String)
    (row : DbRow) : Table :=
  if t.any (fun p => p.1 == key) then
    t.map (fun p => if p.1 == key then (p.1, applyUpdate updateCols p.2 row) else p)
  else t ++ [(key, row)]

/-- migrate.upsert_dataframe: an empty frame returns (0, 0); otherwise the
statement upserts every record, and the function reports
`inserted = len(df)` and `updated = 0` regardless of how many keys already
existed — the source comments that per-row inserted/updated counts are not
available and approximates. -/
def upsert_dataframe (t : Table) (records : List (String × DbRow))
    (updateCols : List String) : UpsertOutcome :=
  if records.isEmpty then ⟨t, 0, 0⟩
  else
    ⟨records.foldl (fun acc p => upsertOne updateCols acc p.1 p.2) t,
     records.length, 0⟩

/-- An ISO-8601 date string: the isoformat print of a calendar-valid date
in the range to_date accepts. -/
def IsIsoDate (s : String) : Prop :=
  ∃ y m d, validDate y m d = true ∧ 1900 ≤ y ∧ y ≤ 2050 ∧ s = isoFormat y m d

/-- A canonical date field: null or an ISO-8601 date string. -/
def IsoOrNone : Option String → Prop
  | none => True
  | some s => IsIsoDate s

/-- A legacy patents frame holding two rows with the same patent_id. -/
def dfPatentsDup : Df :=
  ⟨["patent_id", "client_id", "title", "status", "filing_date", "grant_date"],
   [[("patent_id", some "P1"), ("client_id", some "C1"), ("title", some "Widget A"),
     ("status", some "granted"), ("filing_date", some "2020-01-02"),
     ("grant_date", some "2021-01-02")],
    [("patent_id", some "P1"), ("client_id", some "C1"), ("title", some "Widget B"),
     ("status", some "granted"), ("filing_date", some "2020-01-02"),
     ("grant_date", some "2021-01-02")]]⟩

/-- A legacy patents frame whose one row carries the raw status "issued"
(a variant whose canonical patent status would be "granted"). -/
def dfPatentIssued : Df :=
  ⟨["patent_id", "client_id", "title", "status", "filing_date", "grant_date"],
   [[("patent_id", some "P2"), ("client_id", some "C1"), ("title", some "Widget"),
     ("status", some "issued"), ("filing_date", some "2020-01-02"),
     ("grant_date", some "2021-01-02")]]⟩

/-- A one-row target table whose key P1 already exists. -/
def tableP1 : Table := [("P1", [("title", "Old title"), ("client_id", "1")])]

/-- A one-record frame carrying the already-present key P1. -/
def recsP1 : List (String × DbRow) := [("P1", [("title", "New title"), ("client_id", "1")])]

/-- A clients row missing its client_name and carrying an invalid email. -/
def rowClientBad : Row :=
  [("client_id", some "C1"), ("client_name", some ""), ("email", some "bad")]

/-- Twenty copies of the bad clients row: quality score 0 (two issues per
row) and business score 0 (twenty invalid-email findings), so the entity
validates successfully with overall score exactly 0. -/
def dfClientsZero : Df :=
  ⟨["client_id", "client_name", "email"], List.replicate 20 rowClientBad⟩

/-- A fully clean one-row patents frame: quality 100, no business errors,
overall score 100. -/
def dfPatentsClean : Df :=
  ⟨["patent_id", "client_id", "title", "status", "filing_date", "grant_date"],
   [[("patent_id", some "P1"), ("client_id", some "C1"), ("title", some "Widget"),
     ("status", some "granted"), ("filing_date", some "2020-01-02"),
     ("grant_date", some "2021-01-02")]]⟩

/-- A file system where clients validate successfully with overall score 0,
patents with overall score 100, and the other two files are absent. -/
def fsScoreZero : FileSystem := fun f =>
  if f = "clients.csv" then some dfClientsZero
  else if f = "patents.csv" then some dfPatentsClean
  else none

/-- The empty file system: every entity's CSV is absent. -/
def fsAbsent : FileSystem := fun _ => none

/-- A clean one-row clients frame (valid email, name present). -/
def dfClientsClean : Df :=
  ⟨["client_id", "client_name", "email", "country"],
   [[("client_id", some "C1"), ("client_name", some "Mia Smith"),
     ("email", some "mia@example.com"), ("country", some "USA")]]⟩

/-- A clean one-row trademarks frame. -/
def dfTrademarksClean : Df :=
  ⟨["tm_id", "client_id", "mark_text", "class", "filing_date", "status"],
   [[("tm_id", some "T1"), ("client_id", some "C1"), ("mark_text", some "Brand"),
     ("class", some "9, 35"), ("filing_date", some "2020-01-02"),
     ("status", some "registered")]]⟩

/-- A default patent record for list indexing. -/
def patentRecDefault : PatentRec := ⟨"", none, "", none, none, none, none⟩

/-- A default trademark record for list indexing. -/
def tmRecDefault : TrademarkRec := ⟨"", none, "", [], none, none⟩

/-- A default client record for list indexing. -/
def clientRecDefault : ClientRec := ⟨"", ⟨"", ""⟩, none, none, none, none, none⟩

/-- A clients row whose critical field client_name is missing (empty). -/
def rowMissingName : Row :=
  [("client_id", some "C2"), ("client_name", some ""), ("email", some "ana@example.com")]

/-- A one-row deadlines frame with the legacy schema, which carries
related_type but no related_table column. -/
def dfDeadlinesLegacy : Df :=
  ⟨["dl_id", "related_type", "related_id", "due_date", "description", "status"],
   [[("dl_id", some "D1"), ("related_type", some "patent"),
     ("related_id", some "P1"), ("due_date", some "2024-06-01"),
     ("description", some "Annuity"), ("status", some "pending")]]⟩

/-- An empty deadlines frame (the one shape the deadlines transform
processes without raising). -/
def dfDeadlinesEmpty : Df :=
  ⟨["dl_id", "related_type", "related_id", "due_date", "description"], []⟩

/-- Every element kept by the key-dedup pass comes from the input list. -/
theorem mem_of_mem_dedupKeyAux {α : Type} (key : α → String) :
    ∀ (l : List α) (seen : List String) (x : α),
      x ∈ dedupKeyAux key seen l → x ∈ l := by
  intro l
  induction l with
  | nil => intro seen x h; cases h
  | cons y ys ih =>
    intro seen x h
    unfold dedupKeyAux at h
    split at h
    · exact List.mem_cons_of_mem _ (ih _ _ h)
    · rcases List.mem_cons.1 h with rfl | h2
      · exact List.mem_cons_self _ _
      · exact List.mem_cons_of_mem _ (ih _ _ h2)

/-- The key of every element kept by the key-dedup pass avoids `seen`. -/
theorem key_not_seen_of_mem_dedupKeyAux {α : Type} (key : α → String) :
    ∀ (l : List α) (seen : List String) (x : α),
      x ∈ dedupKeyAux key seen l → key x ∉ seen := by
  intro l
  induction l with
  | nil => intro seen x h; cases h
  | cons y ys ih =>
    intro seen x h
    unfold dedupKeyAux at h
    split at h
    · exact ih _ _ h
    · rcases List.mem_cons.1 h with rfl | h2
      · intro hmem
        rename_i hns
        exact hns (List.elem_iff.2 hmem)
      · have := ih _ _ h2
        intro hmem
        exact this (List.mem_cons_of_mem _ hmem)

/-- The keys of the key-dedup output are pairwise distinct. -/
theorem nodup_map_key_dedupKeyAux {α : Type} (key : α → String) :
    ∀ (l : List α) (seen : List String),
      ((dedupKeyAux key seen l).map key).Nodup := by
  intro l
  induction l with
  | nil => intro seen; simp [dedupKeyAux]
  | cons y ys ih =>
    intro seen
    unfold dedupKeyAux
    split
    · exact ih _
    · simp only [List.map_cons, List.nodup_cons]
      refine ⟨?_, ih _⟩
      intro hmem
      rcases List.mem_map.1 hmem with ⟨x, hx, hkx⟩
      have := key_not_seen_of_mem_dedupKeyAux key ys (key y :: seen) x hx
      exact this (hkx ▸ List.mem_cons_self _ _)

/-- dedupKeepFirst leaves a list whose keys are pairwise distinct. -/
theorem nodup_map_key_dedupKeepFirst {α : Type} (key : α → String) (l : List α) :
    ((dedupKeepFirst key l).map key).Nodup :=
  nodup_map_key_dedupKeyAux key l []

/-- dedupKeepFirst only keeps input elements. -/
theorem mem_of_mem_dedupKeepFirst {α : Type} (key : α → String) {l : List α} {x : α}
    (h : x ∈ dedupKeepFirst key l) : x ∈ l :=
  mem_of_mem_dedupKeyAux key l [] x h

/-- checkDate only returns calendar-valid triples, unchanged. -/
theorem checkDate_eq_some {y m d : ℕ} {t : ℕ × ℕ × ℕ}
    (h : checkDate y m d = some t) : t = (y, m, d) ∧ validDate y m d = true := by
  unfold checkDate at h
  split at h
  · exact ⟨(Option.some.injEq _ _ ▸ h).symm, by assumption⟩
  · cases h

/-- parseYMD only returns calendar-valid triples. -/
theorem parseYMD_valid {a b c : String} {y m d : ℕ}
    (h : parseYMD a b c = some (y, m, d)) : validDate y m d = true := by
  unfold parseYMD at h
  split at h
  · obtain ⟨ht, hv⟩ := checkDate_eq_some h
    obtain ⟨rfl, rfl, rfl⟩ := Prod.mk.injEq .. ▸ ht
    · exact hv
  · split at h
    · split at h
      · obtain ⟨ht, hv⟩ := checkDate_eq_some h
        obtain ⟨rfl, rfl, rfl⟩ := Prod.mk.injEq .. ▸ ht
        · exact hv
      · cases h
    · cases h

/-- parseNumericDate only returns calendar-valid triples. -/
theorem parseNumericDate_valid {s : String} {y m d : ℕ}
    (h : parseNumericDate s = some (y, m, d)) : validDate y m d = true := by
  unfold parseNumericDate at h
  split at h
  · split at h
    · exact parseYMD_valid h
    · cases h
  · cases h

/-- Whatever to_date returns is an ISO-8601 date string in range. -/
theorem to_date_iso {v : Cell} {r : String} (h : to_date v = some r) :
    IsIsoDate r := by
  unfold to_date at h
  cases v with
  | none => cases h
  | some s =>
    dsimp only at h
    split at h
    · cases h
    · split at h
      · cases h
      · split at h
        · cases h
        · split at h
          · rename_i y m d hp
            split at h
            · rename_i hrange
              refine ⟨y, m, d, parseNumericDate_valid hp, ?_, ?_, (Option.some.injEq _ _ ▸ h).symm⟩
              · exact (Bool.and_eq_true ..▸ hrange).1|> of_decide_eq_true
              · exact (Bool.and_eq_true ..▸ hrange).2 |> of_decide_eq_true
            · cases h
          · cases h

/-- A successful association-list lookup returns a stored value. -/
theorem alookup_mem {α : Type} {l : List (String × α)} {k : String} {v : α}
    (h : alookup l k = some v) : ∃ p ∈ l, p.2 = v := by
  unfold alookup at h
  cases hf : l.find? (fun p => p.1 == k) with
  | none => rw [hf] at h; cases h
  | some p =>
    rw [hf] at h
    exact ⟨p, List.mem_of_find?_eq_some hf, Option.some.injEq _ _ ▸ h⟩

/-- Every code in the country table is two characters long. -/
theorem countryMap_len : ∀ p ∈ COUNTRY_MAP, p.2.length = 2 := by decide

/-- iso2 only returns alpha-2 codes. -/
theorem iso2_alpha2 {s r : String} (h : iso2 s = some r) : r.length = 2 := by
  unfold iso2 at h
  dsimp only at h
  split at h
  · cases h
  · split at h
    · cases h
    · split at h
      · rename_i v hl
        obtain ⟨p, hp, hv⟩ := alookup_mem hl
        cases h
        exact hv ▸ countryMap_len p hp
      · split at h
        · rename_i p hf
          cases h
          exact countryMap_len p (List.mem_of_find?_eq_some hf)
        · split at h
          · cases h; rfl
          · split at h
            · cases h; rfl
            · split at h
              · cases h; rfl
              · cases h

/-- Members of an ordered insert come from the inserted element or the list. -/
theorem mem_insSorted {n x : ℕ} : ∀ {l : List ℕ}, x ∈ insSorted n l → x = n ∨ x ∈ l := by
  intro l
  induction l with
  | nil => intro h; simp [insSorted] at h; exact Or.inl h
  | cons a as ih =>
    intro h
    unfold insSorted at h
    split at h
    · rcases List.mem_cons.1 h with rfl | h2
      · exact Or.inl rfl
      · exact Or.inr h2
    · split at h
      · exact Or.inr h
      · rcases List.mem_cons.1 h with rfl | h2
        · exact Or.inr (List.mem_cons_self _ _)
        · rcases ih h2 with h3 | h3
          · exact Or.inl h3
          · exact Or.inr (List.mem_cons_of_mem _ h3)

/-- Ordered insert preserves strict sortedness. -/
theorem pairwise_insSorted {n : ℕ} : ∀ {l : List ℕ},
    l.Pairwise (· < ·) → (insSorted n l).Pairwise (· < ·) := by
  intro l
  induction l with
  | nil => intro _; simp [insSorted]
  | cons a as ih =>
    intro h
    rcases List.pairwise_cons.1 h with ⟨ha, has⟩
    unfold insSorted
    split
    · rename_i hlt
      refine List.pairwise_cons.2 ⟨?_, h⟩
      intro b hb
      rcases List.mem_cons.1 hb with rfl | h2
      · exact hlt
      · exact lt_trans hlt (ha b h2)
    · split
      · exact h
      · rename_i hnlt hne
        refine List.pairwise_cons.2 ⟨?_, ih has⟩
        intro b hb
        rcases mem_insSorted hb with rfl | h2
        · omega
        · exact ha b h2

/-- sortedDedup returns a strictly increasing list. -/
theorem pairwise_sortedDedup (l : List ℕ) : (sortedDedup l).Pairwise (· < ·) := by
  induction l with
  | nil => simp [sortedDedup]
  | cons a as ih => exact pairwise_insSorted ih

/-- parse_classes returns a strictly increasing (hence deduplicated) list. -/
theorem parse_classes_pairwise (v : Cell) : (parse_classes v).Pairwise (· < ·) := by
  unfold parse_classes
  split
  · simp
  · split
    · simp
    · dsimp only
      split
      · simp
      · exact pairwise_sortedDedup _

/-- C1 counterexample: the patents transform keeps both rows of a legacy
frame whose patent_id P1 occurs twice, so the transformed patents output
holds two rows with external_ref P1 — duplicate natural keys are not
dropped for every entity type. -/
theorem c1_counterexample :
    (((transform_patents dfPatentsDup (fun _ => none) (fun _ => none)).map
        (fun rec => rec.external_ref)).count "P1") = 2 := by decide

/-- C1 (amended): only the clients transform deduplicates on external_ref
(keeping the first occurrence); the patents and trademarks transforms emit
one output row per input row, duplicate external_refs included; the
deadlines transform raises KeyError on every nonempty input frame without a
related_table column — which no legacy input has, since that column is
created only on the output — and whenever it does return, it too emits one
output row per input row with no deduplication. -/
theorem c1_dedup_only_clients (df : Df) (cm pm tm : String → Option Nat)
    (jm : String → Option String) :
    ((transform_clients df).map (fun rec => rec.external_ref)).Nodup ∧
    (transform_patents df cm jm).map (fun rec => rec.external_ref)
      = df.rows.map (fun r => pyStrip (cellAsStr (dfCell r "patent_id"))) ∧
    (transform_trademarks df cm).map (fun rec => rec.external_ref)
      = df.rows.map (fun r => pyStrip (cellAsStr (dfCell r "tm_id"))) ∧
    (df.rows ≠ [] → df.cols.contains "related_table" = false →
      transform_deadlines df pm tm = none) ∧
    (∀ l, transform_deadlines df pm tm = some l →
      l.map (fun rec => rec.external_ref)
        = df.rows.map (fun r => pyStrip (cellAsStr (dfCell r "dl_id")))) := by
  refine ⟨nodup_map_key_dedupKeepFirst _ _, ?_, ?_, ?_, ?_⟩
  · simp only [transform_patents, List.map_map]; rfl
  · simp only [transform_trademarks, List.map_map]; rfl
  · intro hne hcol
    rw [transform_deadlines,
        if_neg (by simp [List.isEmpty_iff, hne]),
        if_neg (by rw [hcol]; exact Bool.false_ne_true)]
  · intro l hl
    rw [transform_deadlines] at hl
    split at hl
    · rename_i hemp
      have hrows : df.rows = [] := by simpa [List.isEmpty_iff] using hemp
      obtain rfl : ([] : List DeadlineRec) = l := Option.some.inj hl
      simp [hrows]
    · split at hl
      · obtain rfl := Option.some.inj hl
        simp only [List.map_map]
        rfl
      · exact Option.noConfusion hl

/-- C1 witness: the deadlines clauses at concrete frames — the legacy
one-row frame (no related_table column) makes the transform raise, and the
empty frame returns an empty output whose key list matches. -/
theorem c1_witness :
    transform_deadlines dfDeadlinesLegacy (fun _ => none) (fun _ => none) = none ∧
    ([] : List DeadlineRec).map (fun rec => rec.external_ref)
      = dfDeadlinesEmpty.rows.map (fun r => pyStrip (cellAsStr (dfCell r "dl_id"))) :=
  ⟨(c1_dedup_only_clients dfDeadlinesLegacy (fun _ => none) (fun _ => none)
      (fun _ => none) (fun _ => none)).2.2.2.1 (by decide) (by decide),
   (c1_dedup_only_clients dfDeadlinesEmpty (fun _ => none) (fun _ => none)
      (fun _ => none) (fun _ => none)).2.2.2.2 [] (by decide)⟩

/-- C3: the upsert statement adds no row for an already-present key (the
table keeps its length), yet upsert_dataframe still reports
inserted = len(df) and updated = 0 — here (1, 0) on a one-row frame whose
key already exists, where the claim requires inserted = 0. -/
theorem c3_upsert_miscounts_existing_keys :
    (upsert_dataframe tableP1 recsP1 ["title", "client_id"]).inserted = recsP1.length ∧
    (upsert_dataframe tableP1 recsP1 ["title", "client_id"]).updated = 0 ∧
    (upsert_dataframe tableP1 recsP1 ["title", "client_id"]).table.length = tableP1.length ∧
    (upsert_dataframe tableP1 recsP1 ["title", "client_id"]).inserted ≠ 0 := by decide

/-- C4: on a nonempty frame the quality score is
round(max(0, 100 - total_issues / total_rows * 100), 2) where total_issues
is the sum of the missing-critical-field, invalid-date, invalid-email and
duplicate-external_ref counts; a zero-row frame scores 0 with no issues. -/
theorem c4_quality_score_formula (df : Df) (entity_type : String) :
    (df.rows.length = 0 →
      validate_data_quality df entity_type = ⟨0, 0, 0, 0, 0, 0, 0, []⟩) ∧
    (df.rows.length ≠ 0 →
      (validate_data_quality df entity_type).total_rows = df.rows.length ∧
      (validate_data_quality df entity_type).quality_score =
        round2 (max 0 (100 -
          ((((validate_data_quality df entity_type).missing_critical_fields
             + (validate_data_quality df entity_type).invalid_dates
             + (validate_data_quality df entity_type).invalid_emails
             + (validate_data_quality df entity_type).duplicate_records : ℕ) : ℚ)
           / (((validate_data_quality df entity_type).total_rows : ℕ) : ℚ) * 100)))) := by
  constructor
  · intro h
    simp [validate_data_quality, h]
  · intro h
    rw [validate_data_quality, if_neg h]
    exact ⟨rfl, rfl⟩

/-- C4 witness: the formula at a concrete nonempty frame (one bad email is
one issue in one row: score 0), and the zero-row case. -/
theorem c4_witness :
    validate_data_quality ⟨["client_name", "email"], []⟩ "clients"
      = ⟨0, 0, 0, 0, 0, 0, 0, []⟩ ∧
    (validate_data_quality dfClientsZero "clients").total_rows = dfClientsZero.rows.length ∧
    (validate_data_quality dfClientsZero "clients").quality_score =
      round2 (max 0 (100 -
        ((((validate_data_quality dfClientsZero "clients").missing_critical_fields
           + (validate_data_quality dfClientsZero "clients").invalid_dates
           + (validate_data_quality dfClientsZero "clients").invalid_emails
           + (validate_data_quality dfClientsZero "clients").duplicate_records : ℕ) : ℚ)
         / (((validate_data_quality dfClientsZero "clients").total_rows : ℕ) : ℚ) * 100))) :=
  ⟨(c4_quality_score_formula ⟨["client_name", "email"], []⟩ "clients").1 rfl,
   ((c4_quality_score_formula dfClientsZero "clients").2 (by decide)).1,
   ((c4_quality_score_formula dfClientsZero "clients").2 (by decide)).2⟩

/-- C6: to_date rejects the sentinel bad-date set; a parse whose year falls
outside [1900, 2050] yields null; every successful result is an ISO-8601
date string; ambiguous numeric dates resolve month-first (the first
component of an M/D/Y form is the month whenever it does not exceed 12),
so "05/01/2024" parses to "2024-05-01". -/
theorem c6_to_date_policy :
    (∀ s ∈ badDates, to_date (some s) = none) ∧
    (∀ (s : String) (y m d : ℕ),
        parseNumericDate (clean_string (some s)) = some (y, m, d) →
        y < 1900 ∨ 2050 < y → to_date (some s) = none) ∧
    (∀ (v : Cell) (r : String), to_date v = some r → IsIsoDate r) ∧
    (∀ n1 n2 : ℕ, n1 ≤ 12 → resolveMD n1 n2 = some (n1, n2)) ∧
    to_date (some "05/01/2024") = some "2024-05-01" ∧
    to_date (some "2024-01-05") = some "2024-01-05" := by
  refine ⟨?_, ?_, ?_, ?_, by decide, by decide⟩
  · intro s hs
    simp only [badDates, List.mem_cons, List.not_mem_nil, or_false] at hs
    rcases hs with rfl | rfl | rfl | rfl <;> decide
  · intro s y m d hp hy
    by_cases hs0 : s = ""
    · subst hs0
      rw [show clean_string (some "") = "" from rfl,
          show parseNumericDate "" = none from rfl] at hp
      exact Option.noConfusion hp
    · rw [to_date, if_neg hs0]
      dsimp only
      by_cases hds : clean_string (some s) = ""
      · rw [hds, show parseNumericDate "" = none from rfl] at hp
        exact Option.noConfusion hp
      · rw [if_neg hds]
        by_cases hbad : badDates.contains (clean_string (some s)) = true
        · rw [if_pos hbad]
        · rw [Bool.not_eq_true] at hbad
          rw [hbad]
          simp only [Bool.false_eq_true, if_false]
          rw [hp]
          have hrange : ¬ ((1900 ≤ y && y ≤ 2050) = true) := by
            simp only [Bool.and_eq_true, decide_eq_true_eq, not_and]
            omega
          dsimp only
          rw [if_neg hrange]
  · intro v r h
    exact to_date_iso h
  · intro n1 n2 h
    rw [resolveMD, if_pos h]

/-- C6 witness: the general clauses applied at concrete inputs — the
sentinel "1900-01-01", the out-of-range year 3000, the ISO shape of the
month-first result, and the resolver on (5, 1). -/
theorem c6_witness :
    to_date (some "1900-01-01") = none ∧
    to_date (some "3000-01-05") = none ∧
    IsIsoDate "2024-05-01" ∧
    resolveMD 5 1 = some (5, 1) :=
  ⟨c6_to_date_policy.1 "1900-01-01" (by decide),
   c6_to_date_policy.2.1 "3000-01-05" 3000 1 5 (by decide) (Or.inr (by decide)),
   c6_to_date_policy.2.2.1 (some "05/01/2024") "2024-05-01" c6_to_date_policy.2.2.2.2.1,
   c6_to_date_policy.2.2.2.1 5 1 (by decide)⟩

/-- C9: an absent input CSV makes validate_file return an error entry with
quality score 0 (no exception), and validate_all still yields one entry per
entity type — clients, patents, trademarks, deadlines — whatever the file
system holds. -/
theorem c9_missing_file_nonfatal (fs : FileSystem) (fileName entity_type today : String)
    (h : fs fileName = none) :
    (validate_file fs fileName entity_type today).status = "error" ∧
    (validate_file fs fileName entity_type today).errorScore = some 0 ∧
    (validate_file fs fileName entity_type today).overall = none ∧
    ∀ (fs2 : FileSystem) (today2 : String),
      ((validate_all fs2 today2).results.map (fun p => p.1))
        = ["clients", "patents", "trademarks", "deadlines"] ∧
      (validate_all fs2 today2).entities_validated = 4 := by
  refine ⟨?_, ?_, ?_, ?_⟩
  · rw [validate_file, h]
  · rw [validate_file, h]
  · rw [validate_file, h]
  · intro fs2 today2
    exact ⟨rfl, rfl⟩

/-- C9 witness: the theorem at the empty file system. -/
theorem c9_witness :
    (validate_file fsAbsent "clients.csv" "clients" "2024-01-01").status = "error" ∧
    (validate_file fsAbsent "clients.csv" "clients" "2024-01-01").errorScore = some 0 :=
  ⟨(c9_missing_file_nonfatal fsAbsent "clients.csv" "clients" "2024-01-01" rfl).1,
   (c9_missing_file_nonfatal fsAbsent "clients.csv" "clients" "2024-01-01" rfl).2.1⟩

/-- C10: normalize_status always lands in the canonical key set of the
entity type or the default "pending"; an entity type without a mapping
table (such as "deadline" or the plural "patents") gets "pending" for every
input. -/
theorem c10_normalize_status_range (s entity_type : String) :
    (normalize_status s entity_type = "pending" ∨
      normalize_status s entity_type ∈ statusKeys entity_type) ∧
    (alookup STATUS_MAPPINGS entity_type = none →
      normalize_status s entity_type = "pending") := by
  constructor
  · unfold normalize_status statusKeys
    split
    · exact Or.inl rfl
    · dsimp only
      split
      · exact Or.inl rfl
      · split
        · rename_i p hf
          exact Or.inr (List.mem_map_of_mem _ (List.mem_of_find?_eq_some hf))
        · split
          · rename_i p hf
            exact Or.inr (List.mem_map_of_mem _ (List.mem_of_find?_eq_some hf))
          · exact Or.inl rfl
  · intro h
    unfold normalize_status
    rw [h]
    split
    · rfl
    · dsimp only
      split
      · rfl
      · rfl

/-- C10 witness: the theorem at the unmapped entity type "deadline" with a
status token that would be canonical for patents. -/
theorem c10_witness :
    (normalize_status "granted" "deadline" = "pending" ∨
      normalize_status "granted" "deadline" ∈ statusKeys "deadline") ∧
    normalize_status "granted" "deadline" = "pending" :=
  ⟨(c10_normalize_status_range "granted" "deadline").1,
   (c10_normalize_status_range "granted" "deadline").2 (by decide)⟩

/-- to_date always yields null or an ISO-8601 date string. -/
theorem isoOrNone_to_date (v : Cell) : IsoOrNone (to_date v) := by
  cases h : to_date v with
  | none => trivial
  | some s => exact to_date_iso h

/-- iso2 on a cell yields null or an alpha-2 code. -/
theorem iso2_cell_alpha2 {v : Cell} {code : String}
    (h : iso2_cell v = some code) : code.length = 2 := by
  cases v with
  | none => cases h
  | some s => exact iso2_alpha2 h

/-- C2 counterexample: the raw legacy status "issued" survives the patents
transform verbatim, though it is no canonical patent status (its canonical
form under normalize_status would be "granted") — the transformed status
field is not a value of the canonical status enum. -/
theorem c2_counterexample :
    (transform_patents dfPatentIssued (fun _ => none) (fun _ => none)).map
      (fun rec => rec.status) = [some "issued"] ∧
    "issued" ∉ statusKeys "patent" ∧
    normalize_status "issued" "patent" = "granted" := by
  refine ⟨by decide, by decide, by decide⟩

/-- C2 (amended): transformed date fields are ISO-8601-or-null and
classification sets are strictly sorted and deduplicated, and the clients
country code is alpha-2-or-null; but the status field of patents and
trademarks is copied from the legacy row unchanged, not normalized to the
canonical status enum (the patents jurisdiction passes through the
mappings.json lookup table, a parameter here). -/
theorem c2_canonical_fields (df : Df) (cm : String → Option Nat)
    (jm : String → Option String) :
    (∀ rec ∈ transform_patents df cm jm,
        IsoOrNone rec.filing_date ∧ IsoOrNone rec.grant_date) ∧
    ((transform_patents df cm jm).map (fun rec => rec.status)
        = df.rows.map (fun r => rowGet r "status" "")) ∧
    (∀ rec ∈ transform_trademarks df cm,
        IsoOrNone rec.filing_date ∧ rec.nice_classes.Pairwise (· < ·) ∧
          rec.nice_classes.Nodup) ∧
    ((transform_trademarks df cm).map (fun rec => rec.status)
        = df.rows.map (fun r => rowGet r "status" "")) ∧
    (∀ rec ∈ transform_clients df,
        IsoOrNone rec.created_on ∧
          ∀ code, rec.country_code = some code → code.length = 2) := by
  refine ⟨?_, ?_, ?_, ?_, ?_⟩
  · intro rec hrec
    obtain ⟨r, _, rfl⟩ := List.mem_map.1 hrec
    exact ⟨isoOrNone_to_date _, isoOrNone_to_date _⟩
  · simp only [transform_patents, List.map_map]; rfl
  · intro rec hrec
    obtain ⟨r, _, rfl⟩ := List.mem_map.1 hrec
    exact ⟨isoOrNone_to_date _, parse_classes_pairwise _,
           (parse_classes_pairwise _).imp (fun h => Nat.ne_of_lt h)⟩
  · simp only [transform_trademarks, List.map_map]; rfl
  · intro rec hrec
    obtain ⟨r, _, rfl⟩ := List.mem_map.1 (mem_of_mem_dedupKeepFirst _ hrec)
    exact ⟨isoOrNone_to_date _, fun code hcode => iso2_cell_alpha2 hcode⟩

/-- C2 witness: the amended clauses applied to the concrete records the
clean one-row patents, trademarks and clients frames transform into. -/
theorem c2_witness :
    IsoOrNone ((transform_patents dfPatentsClean (fun _ => none) (fun _ => none)).getD 0
      patentRecDefault).filing_date ∧
    ((transform_trademarks dfTrademarksClean (fun _ => none)).getD 0
      tmRecDefault).nice_classes.Pairwise (· < ·) ∧
    ((transform_clients dfClientsClean).getD 0 clientRecDefault).country_code
        = some "US" ∧
    ("US" : String).length = 2 :=
  ⟨((c2_canonical_fields dfPatentsClean (fun _ => none) (fun _ => none)).1 _
      (by decide)).1,
   ((c2_canonical_fields dfTrademarksClean (fun _ => none) (fun _ => none)).2.2.1 _
      (by decide)).2.1,
   by decide,
   (((c2_canonical_fields dfClientsClean (fun _ => none) (fun _ => none)).2.2.2.2)
      ((transform_clients dfClientsClean).getD 0 clientRecDefault)
      (by decide)).2 "US" (by decide)⟩

/-- The truthiness filter of validate_all keeps exactly the nonzero values
among the overall scores that exist. -/
theorem collectedScores_eq (results : List (String × ValidationResult)) :
    collectedScores results
      = ((results.map (fun p => p.2)).filterMap (fun r => r.overall)).filter
          (fun q => decide (q ≠ 0)) := by
  induction results with
  | nil => rfl
  | cons p rest ih =>
    unfold collectedScores at ih ⊢
    cases h : p.2.overall with
    | none => simp_all [List.filterMap_cons]
    | some q =>
      by_cases hq : q = 0
      · subst hq
        simp_all [List.filterMap_cons]
      · simp_all [List.filterMap_cons]

/-- C5 counterexample: under fsScoreZero, clients validate successfully
with overall score 0 and patents with overall score 100; the claim's mean
over successfully computed entities would be (0 + 100) / 2 = 50, but the
reported system score is 100 — the successful zero-score entity is dropped
by the truthiness test. -/
theorem c5_counterexample :
    (alookup (validate_all fsScoreZero "2024-01-01").results "clients").map
        (fun r => (r.status, r.overall)) = some ("success", some 0) ∧
    (alookup (validate_all fsScoreZero "2024-01-01").results "patents").map
        (fun r => (r.status, r.overall)) = some ("success", some 100) ∧
    (validate_all fsScoreZero "2024-01-01").system_quality_score = 100 ∧
    ((0 : ℚ) + 100) / 2 ≠ 100 := by
  refine ⟨by with_unfolding_all decide, by with_unfolding_all decide,
    by with_unfolding_all decide, by with_unfolding_all decide⟩

/-- C5 (amended): the reported system score is the rounded arithmetic mean
of the nonzero overall scores of the successfully validated entities (0
when there are none); entities with status error carry no overall score and
are excluded, and a successfully validated entity whose overall score is
exactly 0 is excluded from the mean as well. -/
theorem c5_system_score_mean (fs : FileSystem) (today : String) :
    (validate_all fs today).system_quality_score =
      round2
        (if (((validate_all fs today).results.map (fun p => p.2)).filterMap
              (fun r => r.overall)).filter (fun q => decide (q ≠ 0)) = [] then 0
         else ((((validate_all fs today).results.map (fun p => p.2)).filterMap
                (fun r => r.overall)).filter (fun q => decide (q ≠ 0))).sum
           / (((((validate_all fs today).results.map (fun p => p.2)).filterMap
                (fun r => r.overall)).filter (fun q => decide (q ≠ 0))).length : ℚ)) ∧
    (∀ p ∈ (validate_all fs today).results,
        p.2.status = "error" → p.2.overall = none) ∧
    (∀ p ∈ (validate_all fs today).results,
        p.2.status = "success" → p.2.overall ≠ none) := by
  refine ⟨?_, ?_, ?_⟩
  · show round2 _ = _
    rw [show (validate_all fs today).results
          = filesToValidate.map (fun p => (p.2, validate_file fs p.1 p.2 today)) from rfl,
        ← collectedScores_eq]
    rcases hemp : collectedScores
        (filesToValidate.map (fun p => (p.2, validate_file fs p.1 p.2 today))) with _ | ⟨q, t⟩
    · simp [validate_all, hemp]
    · simp [validate_all, hemp]
  · intro p hp hst
    simp only [validate_all, List.mem_map] at hp
    obtain ⟨q, _, rfl⟩ := hp
    rw [validate_file] at hst ⊢
    cases hfs : fs q.1 with
    | none => rfl
    | some df =>
      rw [hfs] at hst
      simp at hst
  · intro p hp hst
    simp only [validate_all, List.mem_map] at hp
    obtain ⟨q, _, rfl⟩ := hp
    rw [validate_file] at hst ⊢
    cases hfs : fs q.1 with
    | none =>
      rw [hfs] at hst
      simp at hst
    | some df =>
      simp

/-- Python split never returns an empty part list. -/
theorem splitCharAux_ne_nil (sep : Char) (cs : List Char) :
    splitCharAux sep cs ≠ [] := by
  cases cs with
  | nil => simp [splitCharAux]
  | cons c r =>
    unfold splitCharAux
    dsimp only
    split
    · simp
    · split <;> simp

/-- The first part of a Python split is the segment before the first
separator. -/
theorem splitCharAux_head (sep : Char) :
    ∀ cs : List Char,
      ∃ t, splitCharAux sep cs = cs.takeWhile (fun c => c ≠ sep) :: t := by
  intro cs
  induction cs with
  | nil => exact ⟨[], rfl⟩
  | cons c r ih =>
    unfold splitCharAux
    dsimp only
    by_cases hc : c = sep
    · rw [if_pos hc]
      exact ⟨splitCharAux sep r, by simp [List.takeWhile_cons, hc]⟩
    · rw [if_neg hc]
      obtain ⟨t, ht⟩ := ih
      rw [ht]
      exact ⟨t, by simp [List.takeWhile_cons, hc]⟩

/-- When the separator occurs, the second part of a Python split is the
segment between the first and second separators. -/
theorem splitCharAux_two (sep : Char) :
    ∀ cs : List Char, cs.contains sep = true →
      ∃ t, splitCharAux sep cs
        = cs.takeWhile (fun c => c ≠ sep)
          :: ((cs.dropWhile (fun c => c ≠ sep)).tail.takeWhile (fun c => c ≠ sep))
          :: t := by
  intro cs
  induction cs with
  | nil => intro h; simp [List.contains_nil] at h
  | cons c r ih =>
    intro h
    by_cases hc : c = sep
    · obtain ⟨t, ht⟩ := splitCharAux_head sep r
      refine ⟨t, ?_⟩
      unfold splitCharAux
      dsimp only
      rw [if_pos hc, ht]
      simp [List.takeWhile_cons, List.dropWhile_cons, hc]
    · have hr : r.contains sep = true := by
        rw [List.contains_cons] at h
        rcases Bool.or_eq_true_iff.1 h with h1 | h1
        · exact absurd (beq_iff_eq.1 h1).symm hc
        · exact h1
      obtain ⟨t, ht⟩ := ih hr
      refine ⟨t, ?_⟩
      unfold splitCharAux
      dsimp only
      rw [if_neg hc, ht]
      simp [List.takeWhile_cons, List.dropWhile_cons, hc]

/-- C8 counterexample: on "Smith, John, Jr" the code splits on every comma
and keeps only parts 0 and 1, so the first name is "John"; splitting on the
first comma as claimed would make everything after it, "John, Jr", the
first name. -/
theorem c8_counterexample :
    split_name "Smith, John, Jr" = ⟨"John", "Smith"⟩ ∧
    pyTitle (pyStrip " John, Jr") = "John, Jr" ∧
    ("John" : String) ≠ "John, Jr" := by
  refine ⟨by decide, by decide, by decide⟩

/-- C8 (amended): empty cleaned input yields both fields empty; when the
cleaned value holds a comma, the segment before the first comma (stripped,
title-cased) is the last name and the segment between the first and second
commas — not everything after the first comma — is the first name, later
segments being dropped; otherwise the whitespace tokens resolve as the
claim says (1 token: last name only; 2 tokens: first then last; more:
first token then the joined rest). -/
theorem c8_split_name_behavior (name : String) :
    (clean_string (some name) = "" → split_name name = ⟨"", ""⟩) ∧
    (clean_string (some name) ≠ "" →
      (clean_string (some name)).data.contains ',' = true →
      split_name name =
        ⟨pyTitle (pyStrip ⟨((clean_string (some name)).data.dropWhile
              (fun c => c ≠ ',')).tail.takeWhile (fun c => c ≠ ',')⟩),
         pyTitle (pyStrip ⟨(clean_string (some name)).data.takeWhile
              (fun c => c ≠ ',')⟩)⟩) ∧
    (clean_string (some name) ≠ "" →
      (clean_string (some name)).data.contains ',' = false →
      (∀ t1, pySplitWs (clean_string (some name)) = [t1] →
          split_name name = ⟨"", pyTitle t1⟩) ∧
      (∀ t1 t2, pySplitWs (clean_string (some name)) = [t1, t2] →
          split_name name = ⟨pyTitle t1, pyTitle t2⟩) ∧
      (∀ t1 t2 t3 ts, pySplitWs (clean_string (some name)) = t1 :: t2 :: t3 :: ts →
          split_name name = ⟨pyTitle t1, pyTitle (joinSpace (t2 :: t3 :: ts))⟩)) := by
  refine ⟨?_, ?_, ?_⟩
  · intro h
    by_cases hn : name = ""
    · subst hn; rfl
    · rw [split_name, if_neg hn]
      dsimp only
      rw [if_pos h]
  · intro hne hcomma
    by_cases hn : name = ""
    · subst hn; exact absurd (by decide) hne
    · rw [split_name, if_neg hn]
      dsimp only
      rw [if_neg hne]
      obtain ⟨t, ht⟩ := splitCharAux_two ',' (clean_string (some name)).data hcomma
      simp only [hcomma, if_true, pySplitChar, ht, List.map_cons, List.length_cons]
      have hlen : 2 ≤ ((t.map (fun l => (⟨l⟩ : String))).map pyStrip).length + 1 + 1 := by
        omega
      rw [if_pos hlen]
      rfl
  · intro hne hcomma
    have base :
        ∀ l, pySplitWs (clean_string (some name)) = l →
          split_name name =
            (match l with
             | [t] => (⟨"", pyTitle t⟩ : NameParts)
             | [a, b] => ⟨pyTitle a, pyTitle b⟩
             | a :: rest => ⟨pyTitle a, pyTitle (joinSpace rest)⟩
             | [] => ⟨"", pyTitle (clean_string (some name))⟩) := by
      intro l hl
      by_cases hn : name = ""
      · subst hn; exact absurd (by decide) hne
      · rw [split_name, if_neg hn]
        dsimp only
        rw [if_neg hne]
        simp only [hcomma, Bool.false_eq_true, if_false, hl]
    refine ⟨?_, ?_, ?_⟩
    · intro t1 h1; exact base [t1] h1
    · intro t1 t2 h1; exact base [t1, t2] h1
    · intro t1 t2 t3 ts h1; exact base (t1 :: t2 :: t3 :: ts) h1

/-- C8 witness: the comma branch at "Smith, Mia", the sentinel-empty branch
at "n/a", and the two-token branch at "Aarav Singh". -/
theorem c8_witness :
    split_name "n/a" = ⟨"", ""⟩ ∧
    split_name "Smith, Mia" =
      ⟨pyTitle (pyStrip ⟨((clean_string (some "Smith, Mia")).data.dropWhile
            (fun c => c ≠ ',')).tail.takeWhile (fun c => c ≠ ',')⟩),
       pyTitle (pyStrip ⟨(clean_string (some "Smith, Mia")).data.takeWhile
            (fun c => c ≠ ',')⟩)⟩ ∧
    split_name "Aarav Singh" = ⟨pyTitle "Aarav", pyTitle "Singh"⟩ :=
  ⟨(c8_split_name_behavior "n/a").1 (by decide),
   (c8_split_name_behavior "Smith, Mia").2.1 (by decide) (by decide),
   ((c8_split_name_behavior "Aarav Singh").2.2 (by decide) (by decide)).2.1
      "Aarav" "Singh" (by decide)⟩

/-- Round-half-even never goes below the floor. -/
theorem rhe_ge_floor (t : ℚ) : ⌊t⌋ ≤ rhe t := by
  unfold rhe
  dsimp only
  split_ifs <;> omega

/-- Round-half-even never exceeds the floor plus one. -/
theorem rhe_le_floor_succ (t : ℚ) : rhe t ≤ ⌊t⌋ + 1 := by
  unfold rhe
  dsimp only
  split_ifs <;> omega

/-- Round-half-even is monotone. -/
theorem rhe_mono {t u : ℚ} (h : t ≤ u) : rhe t ≤ rhe u := by
  rcases lt_or_le ⌊t⌋ ⌊u⌋ with hf | hf
  · have h1 := rhe_le_floor_succ t
    have h2 := rhe_ge_floor u
    omega
  · have hfe : ⌊t⌋ = ⌊u⌋ := le_antisymm (Int.floor_mono h) hf
    have hcast : ((⌊u⌋ : ℤ) : ℚ) = ((⌊t⌋ : ℤ) : ℚ) := by rw [hfe]
    have hd : t - ((⌊t⌋ : ℤ) : ℚ) ≤ u - ((⌊u⌋ : ℤ) : ℚ) := by
      rw [hcast]; linarith
    unfold rhe
    dsimp only
    rw [← hfe]
    rw [hcast] at hd
    split_ifs <;> first | omega | (exfalso; linarith)

/-- Python round-to-2-decimals is monotone. -/
theorem round2_mono {q r : ℚ} (h : q ≤ r) : round2 q ≤ round2 r := by
  unfold round2
  have h1 : rhe (q * 100) ≤ rhe (r * 100) := rhe_mono (by linarith)
  have h2 : ((rhe (q * 100) : ℤ) : ℚ) ≤ ((rhe (r * 100) : ℤ) : ℚ) := by exact_mod_cast h1
  linarith

/-- Appending rows cannot decrease the duplicate count. -/
theorem dupCountAux_mono (l l2 : List Cell) :
    ∀ seen, dupCountAux seen l ≤ dupCountAux seen (l ++ l2) := by
  induction l with
  | nil =>
    intro seen
    simp [dupCountAux]
  | cons c rest ih =>
    intro seen
    unfold dupCountAux
    exact Nat.add_le_add_left (ih _) _

/-- The quality score of a nonempty frame, through the issue-count total. -/
theorem quality_score_eq (df : Df) (entity_type : String) (h : df.rows.length ≠ 0) :
    (validate_data_quality df entity_type).quality_score =
      round2 (max 0 (100 -
        (totalIssues df entity_type : ℚ) / (df.rows.length : ℚ) * 100)) := by
  rw [validate_data_quality, if_neg h]

/-- Appending a row cannot decrease a missing-field count. -/
theorem missingCnt_le (df : Df) (r : Row) (f : String) :
    missingCnt df f ≤ missingCnt ⟨df.cols, df.rows ++ [r]⟩ f := by
  unfold missingCnt
  dsimp only
  split_ifs
  · simp only [List.countP_append]
    omega
  · exact le_rfl

/-- Appending a row that is missing a present critical field raises that
field's missing count by at least one. -/
theorem missingCnt_succ_le (df : Df) (r : Row) (f : String)
    (hc : df.cols.contains f = true)
    (hm : dfCell r f = none ∨ dfCell r f = some "") :
    missingCnt df f + 1 ≤ missingCnt ⟨df.cols, df.rows ++ [r]⟩ f := by
  unfold missingCnt
  dsimp only
  rw [if_pos hc, if_pos hc]
  simp only [List.countP_append]
  rcases hm with hm | hm <;>
    simp [List.countP_cons, hm] <;> omega

/-- Pointwise bounds lift to sums over a field list, gaining one at a
witness field. -/
theorem sum_map_succ_le {l : List String} {g h : String → ℕ}
    (hp : ∀ x ∈ l, g x ≤ h x) {x0 : String} (hx : x0 ∈ l)
    (h1 : g x0 + 1 ≤ h x0) :
    (l.map g).sum + 1 ≤ (l.map h).sum := by
  obtain ⟨s, t, rfl⟩ := List.append_of_mem hx
  have hs : (s.map g).sum ≤ (s.map h).sum :=
    List.sum_le_sum (fun i hi => hp i (by simp [hi]))
  have ht2 : (t.map g).sum ≤ (t.map h).sum :=
    List.sum_le_sum (fun i hi => hp i (by simp [hi]))
  simp only [List.map_append, List.sum_append, List.map_cons, List.sum_cons]
  omega

/-- Appending a row cannot decrease an invalid-date count. -/
theorem invalidDateCnt_le (df : Df) (r : Row) (f : String) :
    invalidDateCnt df f ≤ invalidDateCnt ⟨df.cols, df.rows ++ [r]⟩ f := by
  unfold invalidDateCnt
  dsimp only
  split_ifs
  · simp only [List.countP_append]
    omega
  · exact le_rfl

/-- Appending a row cannot decrease the invalid-date total. -/
theorem dateIssueCnt_le (df : Df) (r : Row) (entity_type : String) :
    dateIssueCnt df entity_type ≤ dateIssueCnt ⟨df.cols, df.rows ++ [r]⟩ entity_type := by
  unfold dateIssueCnt
  split_ifs
  · exact List.sum_le_sum (fun f _ => invalidDateCnt_le df r f)
  · exact le_rfl

/-- Appending a row cannot decrease the invalid-email count: the row adds
one to the total and at most one to the valid count. -/
theorem emailIssueCnt_le (df : Df) (r : Row) (entity_type : String) :
    emailIssueCnt df entity_type ≤ emailIssueCnt ⟨df.cols, df.rows ++ [r]⟩ entity_type := by
  unfold emailIssueCnt invalidEmailCnt validEmailCnt
  split_ifs with h1 h2
  · have hv : df.rows.countP
        (fun row => truthy (dfCell row "email") && parse_email (dfCell row "email") ≠ "")
        ≤ df.rows.length := List.countP_le_length _
    have hr : List.countP
        (fun row => truthy (dfCell row "email") && parse_email (dfCell row "email") ≠ "")
        [r] ≤ 1 := List.countP_le_length _
    simp only [List.countP_append, List.length_append, List.length_cons,
      List.length_nil]
    omega
  · exact le_rfl
  · exact le_rfl

/-- Appending a row cannot decrease the duplicate-record count. -/
theorem dupRecords_le (df : Df) (r : Row) :
    dupRecords df ≤ dupRecords ⟨df.cols, df.rows ++ [r]⟩ := by
  unfold dupRecords
  dsimp only
  split_ifs
  · rw [List.map_append]
    exact dupCountAux_mono _ _ []
  · exact le_rfl

/-- Appending a row that is missing a present critical field raises the
total issue count by at least one. -/
theorem totalIssues_succ (df : Df) (r : Row) (entity_type f : String)
    (hf : f ∈ criticalFields entity_type)
    (hc : df.cols.contains f = true)
    (hm : dfCell r f = none ∨ dfCell r f = some "") :
    totalIssues df entity_type + 1 ≤ totalIssues ⟨df.cols, df.rows ++ [r]⟩ entity_type := by
  unfold totalIssues missingTotal
  have h1 := sum_map_succ_le (fun x _ => missingCnt_le df r x) hf
    (missingCnt_succ_le df r f hc hm)
  have h2 := dateIssueCnt_le df r entity_type
  have h3 := emailIssueCnt_le df r entity_type
  have h4 := dupRecords_le df r
  omega

/-- Raising the issue count by one while raising the row count by one never
raises the raw score. -/
theorem score_core {I I' N : ℕ} (hI : I + 1 ≤ I') (hN : 1 ≤ N) :
    max 0 (100 - (I' : ℚ) / ((N : ℚ) + 1) * 100) ≤
      max 0 (100 - (I : ℚ) / (N : ℚ) * 100) := by
  have hNpos : (0 : ℚ) < (N : ℚ) := by exact_mod_cast hN
  have hN1pos : (0 : ℚ) < (N : ℚ) + 1 := by linarith
  have hII : (I : ℚ) + 1 ≤ (I' : ℚ) := by exact_mod_cast hI
  rcases le_or_lt (I : ℚ) (N : ℚ) with hIN | hIN
  · apply max_le_max le_rfl
    have hdiv : (I : ℚ) / (N : ℚ) ≤ (I' : ℚ) / ((N : ℚ) + 1) := by
      rw [div_le_div_iff₀ hNpos hN1pos]
      nlinarith
    linarith
  · have hNI : N + 1 ≤ I := by
      have : N < I := by exact_mod_cast hIN
      omega
    have hIa : (N : ℚ) + 1 ≤ (I' : ℚ) := by
      have : ((N + 1 : ℕ) : ℚ) ≤ ((I' : ℕ) : ℚ) := by
        exact_mod_cast (by omega : N + 1 ≤ I')
      push_cast at this
      linarith
    have hL : 100 - (I' : ℚ) / ((N : ℚ) + 1) * 100 ≤ 0 := by
      have h2 : (1 : ℚ) ≤ (I' : ℚ) / ((N : ℚ) + 1) := by
        rw [le_div_iff₀ hN1pos]
        linarith
      linarith
    calc max 0 (100 - (I' : ℚ) / ((N : ℚ) + 1) * 100) = 0 := max_eq_left hL
      _ ≤ max 0 (100 - (I : ℚ) / (N : ℚ) * 100) := le_max_left _ _

/-- C7: appending one row that is missing a critical field (a field of the
entity's critical list, present among the frame's columns, with a NaN or
empty cell in the new row) never increases the quality score. -/
theorem c7_score_monotone (df : Df) (r : Row) (entity_type f : String)
    (hf : f ∈ criticalFields entity_type)
    (hc : df.cols.contains f = true)
    (hm : dfCell r f = none ∨ dfCell r f = some "") :
    (validate_data_quality ⟨df.cols, df.rows ++ [r]⟩ entity_type).quality_score ≤
      (validate_data_quality df entity_type).quality_score := by
  have hlen' : (Df.mk df.cols (df.rows ++ [r])).rows.length = df.rows.length + 1 := by
    simp
  have hne' : (Df.mk df.cols (df.rows ++ [r])).rows.length ≠ 0 := by simp
  by_cases h0 : df.rows.length = 0
  · have hsc : (validate_data_quality df entity_type).quality_score = 0 := by
      rw [validate_data_quality, if_pos h0]
    rw [hsc, quality_score_eq _ _ hne']
    have h1 : 1 ≤ totalIssues ⟨df.cols, df.rows ++ [r]⟩ entity_type := by
      have := totalIssues_succ df r entity_type f hf hc hm
      omega
    have hI : (1 : ℚ) ≤ (totalIssues ⟨df.cols, df.rows ++ [r]⟩ entity_type : ℚ) := by
      exact_mod_cast h1
    have hN1 : (((⟨df.cols, df.rows ++ [r]⟩ : Df).rows.length : ℕ) : ℚ) = 1 := by
      rw [hlen', h0]
      norm_num
    have hinner : 100 - (totalIssues ⟨df.cols, df.rows ++ [r]⟩ entity_type : ℚ)
        / (((⟨df.cols, df.rows ++ [r]⟩ : Df).rows.length : ℕ) : ℚ) * 100 ≤ 0 := by
      rw [hN1, div_one]
      linarith
    rw [max_eq_left hinner]
    have hz : round2 0 = 0 := by with_unfolding_all decide
    rw [hz]
  · have hN : 1 ≤ df.rows.length := Nat.one_le_iff_ne_zero.2 h0
    rw [quality_score_eq _ _ h0, quality_score_eq _ _ hne']
    apply round2_mono
    have hsucc := totalIssues_succ df r entity_type f hf hc hm
    have hcore := score_core hsucc hN
    rw [hlen']
    push_cast
    exact hcore

/-- C7 witness: adding the name-missing row to the clean one-row clients
frame; the score drops from 100 to 50. -/
theorem c7_witness :
    "client_name" ∈ criticalFields "clients" ∧
    dfClientsClean.cols.contains "client_name" = true ∧
    (dfCell rowMissingName "client_name" = none ∨
      dfCell rowMissingName "client_name" = some "") ∧
    (validate_data_quality ⟨dfClientsClean.cols, dfClientsClean.rows ++ [rowMissingName]⟩
        "clients").quality_score ≤
      (validate_data_quality dfClientsClean "clients").quality_score :=
  ⟨by decide, by decide, by decide,
   c7_score_monotone dfClientsClean rowMissingName "clients" "client_name"
     (by decide) (by decide) (by decide)⟩

/-- C5 witness: the exclusion clauses at fsScoreZero — the error entity
trademarks has no overall score, and the successful entity patents has
one. -/
theorem c5_witness :
    (validate_file fsScoreZero "trademarks.csv" "trademarks" "2024-01-01").overall
      = none ∧
    (validate_file fsScoreZero "patents.csv" "patents" "2024-01-01").overall
      ≠ none :=
  ⟨(c5_system_score_mean fsScoreZero "2024-01-01").2.1
      ("trademarks", validate_file fsScoreZero "trademarks.csv" "trademarks" "2024-01-01")
      (by with_unfolding_all decide) (by with_unfolding_all decide),
   (c5_system_score_mean fsScoreZero "2024-01-01").2.2
      ("patents", validate_file fsScoreZero "patents.csv" "patents" "2024-01-01")
      (by with_unfolding_all decide) (by with_unfolding_all decide)⟩

end LegacyIP
